import Mathlib

/-!
Verification development for the convolution translation core
(`src/tools/onnx_tf/handlers/backend/conv_mixin.py`).

The translation call is embedded shallowly: every backend tensor operation the
code emits (transpose, pad, split, convolution, transposed convolution, concat,
slice, add) is recorded in an emission trace, symbolic tensor handles are terms
of an inductive type, and failures are values of an error type.  Shapes are
lists of optional integers (a `none` entry is a statically unknown dimension).
Weight tensors come from graph initializers, so their static shape is fully
known to the translator; attribute lists are read with a default at out-of-range
positions, which the interchange format's validity rules keep unreachable.
-/

set_option linter.unusedVariables false

namespace OnnxTf

/-- Static tensor dimension: a known size or a statically unknown (dynamic) one. -/
abbrev Dim := Option Int

/-- Axis label of a data-layout format: batch, channel, or the i-th spatial axis. -/
inductive Ax where
  | N : Ax
  | C : Ax
  | S : Nat → Ax
deriving DecidableEq, Repr

/-- A data-layout format is an ordered list of axis labels. -/
abbrev Format := List Ax

/-- Modelled from the spec: the layout utility `get_data_format` (code of this
repository not under src/) maps a tensor rank to a storage format.  The storage
format keeps the channel axis at position 1; this is fixed by the call sites in
`conv` (a split of a storage-layout tensor uses axis 1 and the pad literal on the
accelerated path pads the two trailing axes). -/
def storageFormat (rank : Nat) : Format :=
  Ax.N :: Ax.C :: (List.range (rank - 2)).map Ax.S

/-- Modelled from the spec: the compute format returned by `get_data_format`
equals the storage format exactly when the accelerated device path is available,
and otherwise moves the channel axis last (splits and concats of compute-layout
tensors use axis -1 in `conv`). -/
def computeFormat (cuda : Bool) (rank : Nat) : Format :=
  if cuda then storageFormat rank
  else Ax.N :: ((List.range (rank - 2)).map Ax.S ++ [Ax.C])

/-- Spatial labels of the compute format, in order (line 36 of the source). -/
def spatialFormat (rank : Nat) : Format :=
  (List.range (rank - 2)).map Ax.S

/-- Modelled from the spec: the layout utility `get_perm_from_formats` (code of
this repository not under src/) returns the permutation carrying format `a` to
format `b`: entry `i` is the position in `a` of the i-th label of `b`. -/
def permFromFormats (a b : Format) : List Nat :=
  b.map fun d => a.indexOf d

/-- The backend padding-mode vocabulary plus the sentinel used by the source for
a padding request TensorFlow cannot express (line 12 of the source). -/
inductive PadMode where
  | VALID : PadMode
  | SAME : PadMode
  | NOTSET : PadMode
  | PAD_TF_INCOMPATIBLE : PadMode
deriving DecidableEq, Repr

/-- One entry of a shape argument handed to a backend primitive: either a static
value (possibly unknown) or a runtime batch-size lookup spliced in by
`handle_dynamic_batch_size` (lines 163-171 of the source). -/
inductive DynDim where
  | known : Dim → DynDim
  | runtimeBatch : Nat → DynDim
deriving DecidableEq, Repr

/-- Strides argument of a transposed-convolution primitive: the rank-1 primitive
takes a scalar (line 180 of the source), the others a full-rank list. -/
inductive StridesArg where
  | scalar : Int → StridesArg
  | full : List Int → StridesArg
deriving DecidableEq, Repr

/-- Symbolic backend tensor handles: the graph terms built by one translation. -/
inductive Tensor where
  | input : String → Tensor
  | transposeT : Tensor → List Nat → Tensor
  | padT : Tensor → List (Int × Int) → Tensor
  | part : Tensor → Nat → Int → Nat → Tensor
  | convolution : Tensor → Tensor → PadMode → List Int → List Int → Format → Tensor
  | convTransposeT : Nat → Tensor → Tensor → List DynDim → StridesArg → PadMode → Format → Tensor
  | concatT : List Tensor → Int → Tensor
  | sliceT : Tensor → List Int → List DynDim → Tensor
  | addT : Tensor → Tensor → Tensor
  | broadcastT : Tensor → Tensor → Nat → Tensor

/-- One emitted backend tensor operation, in emission order. -/
inductive Op where
  | transposeOp : Tensor → List Nat → Op
  | padOp : Tensor → List (Int × Int) → Op
  | splitOp : Tensor → Nat → Int → Op
  | convOp : Tensor → Tensor → PadMode → List Int → List Int → Format → Op
  | convTransposeOp : Nat → Tensor → Tensor → List DynDim → StridesArg → PadMode → Format → Op
  | concatOp : List Tensor → Int → Op
  | sliceOp : Tensor → List Int → List DynDim → Op
  | addOp : Tensor → Tensor → Op

/-- Kinds of emitted operations. -/
inductive OpKind where
  | transposeK | padK | splitK | convK | convTK | concatK | sliceK | addK
deriving DecidableEq, Repr

/-- Kind of an emitted operation. -/
def Op.kind : Op → OpKind
  | .transposeOp .. => .transposeK
  | .padOp .. => .padK
  | .splitOp .. => .splitK
  | .convOp .. => .convK
  | .convTransposeOp .. => .convTK
  | .concatOp .. => .concatK
  | .sliceOp .. => .sliceK
  | .addOp .. => .addK

/-- Failure conditions of the translation (spec section 7), plus the backend
graph-construction failure of a pad operation whose fixed four-row paddings
argument is checked against the rank of the tensor being padded (the stride
adjustment of lines 96-103 and 277-284 always passes a rank-4 paddings
literal, which the backend rejects on any input whose rank is not 4). -/
inductive ConvError where
  | shapeMismatch : ConvError
  | unsupportedOnBackend : ConvError
  | invalidAttribute : ConvError
  | incompatibleDilation : ConvError
  | unimplementedRank : ConvError
  | padRankMismatch : ConvError
deriving DecidableEq, Repr

/-- Interchange-format operator node: ordered input references and the optional
attributes read by `conv`. -/
structure Node where
  inputs : List String
  kernel_shape : Option (List Int) := none
  strides : Option (List Int) := none
  dilations : Option (List Int) := none
  pads : Option (List Int) := none
  group : Option Nat := none
  auto_pad : Option String := none
  output_shape : Option (List Int) := none
  output_padding : Option (List Int) := none
deriving Repr

/-- A runtime tensor bound in the input dictionary: its handle name and its
statically queryable shape. -/
structure TensorVal where
  name : String
  shape : List Dim
deriving Repr

/-- Combine two possibly-unknown dimensions; unknown propagates. -/
def dzip (a b : Dim) (f : Int → Int → Int) : Dim :=
  match a, b with
  | some x, some y => some (f x y)
  | _, _ => none

/-- Last `n` entries of a list (Python `l[-n:]`). -/
def takeLast (n : Nat) (l : List α) : List α :=
  l.drop (l.length - n)

/-- Python `list.insert(i, v)` for a non-negative index: the element is placed
before position `i`, with the index clamped to the list length, so an index past
the end appends (unlike `List.insertIdx`, which drops the insertion there). -/
def pyInsert (xs : List α) (i : Nat) (v : α) : List α :=
  xs.take i ++ v :: xs.drop i

/-- Static shape of a padded tensor: each dimension grows by its two pad amounts. -/
def padShape (s : List Dim) (spec : List (Int × Int)) : List Dim :=
  (s.zip spec).map fun p => p.1.map fun v => v + p.2.1 + p.2.2

/-- Modelled from the spec: `PadMixin.get_padding_as_op` (code of this repository
not under src/) materializes the interchange-format pads attribute (begin pads,
then end pads, per spatial axis) as one explicit pad operation on the input,
leaving batch and channel axes unpadded. -/
def getPaddingAsOp (pads : List Int) : List (Int × Int) :=
  let n := pads.length / 2
  (0, 0) :: (0, 0) :: (pads.take n).zip (pads.drop n)

/-- Kernel-shape resolution (lines 47-56 of the source): a present attribute is
asserted against the weight tensor's trailing dimensions; an absent one is taken
from them. -/
def resolveKernelShape (attr : Option (List Int)) (wShape : List Dim) :
    Except ConvError (List Dim) :=
  match attr with
  | some ks =>
      if wShape.drop 2 = ks.map some then .ok (ks.map some)
      else .error .shapeMismatch
  | none => .ok (wShape.drop 2)

/-- Padding-mode derivation (lines 64-91 of the source).  On the explicit-pads
branch the pad is materialized immediately; the `PAD_TF_INCOMPATIBLE` sentinel
of the source is collapsed into the unsupported-on-backend failure it always
produces at lines 87-91. -/
def derivePadMode (transpose : Bool) (autoPad : Option String) (pads : List Int)
    (spatialSize : Nat) (x : Tensor) :
    Except ConvError (PadMode × Tensor × List Op) :=
  if autoPad = none ∨ autoPad = some "NOTSET" then
    if transpose = false then
      if pads ≠ List.replicate (2 * spatialSize) 0 then
        let spec := getPaddingAsOp pads
        .ok (.VALID, .padT x spec, [.padOp x spec])
      else
        .ok (.VALID, x, [])
    else
      .ok (.NOTSET, x, [])
  else if autoPad = some "SAME_UPPER" then
    .ok (.SAME, x, [])
  else if autoPad = some "VALID" then
    .ok (.VALID, x, [])
  else if autoPad = some "SAME_LOWER" then
    if transpose then .error .unsupportedOnBackend
    else .ok (.SAME, x, [])
  else
    .error .invalidAttribute

/-- Translation-wide context consumed by each transposed-convolution slice
(everything in the loop body of lines 140-272 that does not depend on the
slice). -/
structure TEnv where
  cuda : Bool
  d : Nat
  padMode : PadMode
  strides : List Int
  dilations : List Int
  pads : List Int
  kernelShape : List Dim
  outputShapeAttr : Option (List Int)
  outputPaddingAttr : Option (List Int)
  batchDim : Dim
  xSp : List Dim
  weightsShape : List Dim
  storageF : Format
  computeF : Format
  spatialF : Format
  cIdx : Nat

/-- Does a shape entry hold a statically unknown value (Python `is None`)? -/
def dynIsNoneKnown : DynDim → Bool
  | .known none => true
  | _ => false

/-- Static view of a shape argument entry. -/
def DynDim.toStatic : DynDim → Dim
  | .known v => v
  | .runtimeBatch _ => none

/-- Loop body of the transposed-convolution path (lines 140-272 of the source)
for a single (input slice, weight slice) pair, in the three supported ranks.
The `tf.shape`/`tf.stack` calls of `handle_dynamic_batch_size` build the shape
argument and are not among the traced tensor-operation kinds.  The rank
dispatch (lines 178-188 and 252-262) merges the three supported arms, which
differ only in the primitive's rank tag and in the rank-1 scalar strides
argument. -/
def oneTBody (env : TEnv) (xi wi : Tensor) : List Op × Tensor :=
  let nStorage := env.storageF.indexOf .N
  let chDim : DynDim := .known (env.weightsShape.getD (env.weightsShape.length - 2) none)
  let stridesFull : List Int := pyInsert ((1 : Int) :: env.strides) env.cIdx 1
  let sArg : StridesArg :=
    if env.d = 1 then .scalar (env.strides.getD 0 1) else .full stridesFull
  match env.padMode with
  | .NOTSET =>
    let cosSpatial : List DynDim :=
      match env.outputShapeAttr with
      | none =>
        (List.range env.d).map fun i =>
          .known (dzip (env.xSp.getD i none) (env.kernelShape.getD i none) fun xv kv =>
            env.strides.getD i 0 * xv - env.strides.getD i 0 +
              (kv - 1) * env.dilations.getD i 0 + 1)
      | some os =>
        (takeLast 2 os).enum.map fun p =>
          .known (some (p.2 + env.pads.getD p.1 0 + env.pads.getD (env.d + p.1) 0))
    let cos1 := pyInsert (DynDim.known env.batchDim :: cosSpatial) env.cIdx chDim
    let cos2 :=
      if dynIsNoneKnown (cos1.getD nStorage (.known none)) then
        cos1.set nStorage (.runtimeBatch nStorage)
      else cos1
    let convRs := Tensor.convTransposeT env.d xi wi cos2 sArg .VALID env.computeF
    let padStep :=
      match env.outputPaddingAttr, env.outputShapeAttr with
      | some opd, none =>
        let spec := pyInsert ((0, 0) :: opd.map fun p => ((0 : Int), p)) env.cIdx (0, 0)
        ([Op.padOp convRs spec], Tensor.padT convRs spec, some spec)
      | _, _ => ([], convRs, none)
    let convRs2 := padStep.2.1
    let base : List Dim := cos2.map DynDim.toStatic
    let convRsShape : List Dim :=
      match padStep.2.2 with
      | some spec => padShape base spec
      | none => base
    let begin : List Int := pyInsert ((0 : Int) :: env.pads.take env.d) env.cIdx 0
    let size0 : List Dim := (env.computeF.zip convRsShape).map fun q =>
      match q.1 with
      | .N => q.2
      | .C => q.2
      | a => q.2.map fun v =>
          v - env.pads.getD (env.spatialF.indexOf a) 0 -
            env.pads.getD (env.spatialF.indexOf a + env.d) 0
    let nCompute := env.computeF.indexOf .N
    let sizeDyn : List DynDim :=
      if (size0.getD nCompute none).isNone then
        (size0.map DynDim.known).set nCompute (.runtimeBatch nCompute)
      else size0.map DynDim.known
    ([Op.convTransposeOp env.d xi wi cos2 sArg .VALID env.computeF] ++ padStep.1 ++
       [Op.sliceOp convRs2 begin sizeDyn],
     Tensor.sliceT convRs2 begin sizeDyn)
  | pm =>
    let cosSpatial : List DynDim :=
      if pm = .VALID then
        (List.range env.d).map fun i =>
          .known (dzip (env.xSp.getD i none) (env.weightsShape.getD i none) fun xv wv =>
            env.strides.getD i 0 * (xv - 1) + wv)
      else
        (List.range env.d).map fun i =>
          .known ((env.xSp.getD i none).map fun xv => env.strides.getD i 0 * xv)
    let cos1 := pyInsert (DynDim.known env.batchDim :: cosSpatial) env.cIdx chDim
    let cos2 :=
      if dynIsNoneKnown (cos1.getD nStorage (.known none)) then
        cos1.set nStorage (.runtimeBatch nStorage)
      else cos1
    ([Op.convTransposeOp env.d xi wi cos2 sArg pm env.computeF],
     Tensor.convTransposeT env.d xi wi cos2 sArg pm env.computeF)

/-- One loop iteration of the transposed-convolution path: the rank dispatch of
the source raises the unimplemented-rank failure outside ranks 1-3, before any
operation of this iteration is emitted (the computation preceding the dispatch
in the source is pure shape arithmetic); inside them it emits the body. -/
def oneT (env : TEnv) (xi wi : Tensor) : List Op × Except ConvError Tensor :=
  if env.d = 1 ∨ env.d = 2 ∨ env.d = 3 then
    ((oneTBody env xi wi).1, .ok (oneTBody env xi wi).2)
  else
    ([], .error .unimplementedRank)

/-- The for-loop of lines 140-272: iterate `oneT` over the (input slice, weight
slice) pairs, accumulating the emission trace; an exception keeps the trace
emitted so far and aborts. -/
def tLoop (env : TEnv) : List (Tensor × Tensor) → List Op × Except ConvError (List Tensor)
  | [] => ([], .ok [])
  | p :: rest =>
    match oneT env p.1 p.2 with
    | (ops, .error e) => (ops, .error e)
    | (ops, .ok t) =>
      match tLoop env rest with
      | (ops2, .error e) => (ops ++ ops2, .error e)
      | (ops2, .ok ts) => (ops ++ ops2, .ok (t :: ts))

/-- Reassembly tail of the grouped path (lines 297-315 of the source): concat of
the per-group results along the channel axis, broadcast bias add when a third
input is present (using `xRef`, the tensor bound to `x` at that point, as the
reference operand of `explicit_broadcast`), and the compute-to-storage layout
reversion on the unaccelerated path. -/
def assemble (cuda : Bool) (numInputs : Nat) (biasName : String) (xRef : Tensor)
    (cIdx : Nat) (pCS : List Nat) (convolved : List Tensor) : List Op × Tensor :=
  if numInputs = 2 then
    if cuda then
      ([Op.concatOp convolved 1], Tensor.concatT convolved 1)
    else
      let o := Tensor.concatT convolved (-1)
      ([Op.concatOp convolved (-1), Op.transposeOp o pCS], Tensor.transposeT o pCS)
  else
    let bias := Tensor.broadcastT xRef (Tensor.input biasName) cIdx
    if cuda then
      let o := Tensor.concatT convolved 1
      ([Op.concatOp convolved 1, Op.addOp o bias], Tensor.addT o bias)
    else
      let o := Tensor.concatT convolved (-1)
      let a := Tensor.addT o bias
      ([Op.concatOp convolved (-1), Op.addOp o bias, Op.transposeOp a pCS],
       Tensor.transposeT a pCS)

/-- The translation call `ConvMixin.conv` (lines 17-317 of the source), embedded
line by line.  `cuda` is the result of the device-capability query; the returned
trace lists every emitted backend tensor operation in order, and the `Except`
value is the single returned tensor or the failure condition.
`explicit_broadcast` is modelled from the spec (code of this repository not
under src/): it expands the bias toward the channel axis using its first
argument only as the rank reference, emitting none of the traced operation
kinds.  Python 3 scoping applies: the `for` loop of line 140 leaves `x` bound to
the last slice, while the list comprehension of lines 286-295 does not rebind
`x`.  The stride-adjustment pads of lines 96-103 and 277-284 hand the backend a
fixed four-row paddings literal; the backend checks that literal against the
static rank of the tensor being padded when the pad operation is constructed,
so on any input whose rank is not 4 the translation aborts there, before the
pad is emitted (in the grouped comprehension, at its first element). -/
def conv (cuda : Bool) (node : Node) (inputDict : String → TensorVal)
    (transpose : Bool) : List Op × Except ConvError Tensor :=
  let xv := inputDict (node.inputs.getD 0 "")
  let x0 : Tensor := .input xv.name
  let xRank := xv.shape.length
  let xShape := xv.shape
  let spatialSize := xRank - 2
  let storageF := storageFormat xRank
  let computeF := computeFormat cuda xRank
  let computeCIdx := computeF.indexOf .C
  let spatialF := spatialFormat xRank
  let wv := inputDict (node.inputs.getD 1 "")
  let w0 : Tensor := .input wv.name
  let weightsRank := wv.shape.length
  let perm : List Nat := List.range' 2 (weightsRank - 2) ++ [1, 0]
  match resolveKernelShape node.kernel_shape wv.shape with
  | .error e => ([], .error e)
  | .ok kernelShape =>
    let weights : Tensor := .transposeT w0 perm
    let ops0 : List Op := [.transposeOp w0 perm]
    let dilations := node.dilations.getD (List.replicate spatialSize 1)
    let strides := node.strides.getD (List.replicate spatialSize 1)
    let pads := node.pads.getD (List.replicate (2 * spatialSize) 0)
    match derivePadMode transpose node.auto_pad pads spatialSize x0 with
    | .error e => (ops0, .error e)
    | .ok pmr =>
      let padMode := pmr.1
      let x1 := pmr.2.1
      let ops1 := ops0 ++ pmr.2.2
      let group := node.group.getD 1
      let pSC := permFromFormats storageF computeF
      let pCS := permFromFormats computeF storageF
      if group = 1 ∧ transpose = false then
        let adj : Except ConvError (List Op × Tensor × PadMode) :=
          if node.auto_pad = some "SAME_LOWER" ∧ strides ≠ [1, 1] then
            if xRank = 4 then
              if cuda then
                let spec : List (Int × Int) := [(0, 0), (0, 0), (1, 1), (1, 1)]
                .ok ([Op.padOp x1 spec], Tensor.padT x1 spec, PadMode.VALID)
              else
                let spec : List (Int × Int) := [(0, 0), (1, 1), (1, 1), (0, 0)]
                let xp := Tensor.padT x1 spec
                .ok ([Op.padOp x1 spec, Op.transposeOp xp pSC],
                     Tensor.transposeT xp pSC, PadMode.VALID)
            else .error .padRankMismatch
          else .ok ([], x1, padMode)
        match adj with
        | .error e => (ops1, .error e)
        | .ok adj =>
          let x2 := adj.2.1
          let padMode1 := adj.2.2
          let output := Tensor.convolution x2 weights padMode1 strides dilations computeF
          let ops2 := ops1 ++ adj.1 ++ [Op.convOp x2 weights padMode1 strides dilations computeF]
          if node.inputs.length = 2 then
            if cuda then (ops2, .ok output)
            else (ops2 ++ [Op.transposeOp output pCS], .ok (Tensor.transposeT output pCS))
          else
            let bias0 : Tensor := .input (inputDict (node.inputs.getD 2 "")).name
            let bias := Tensor.broadcastT x2 bias0 computeCIdx
            if cuda then
              (ops2 ++ [Op.addOp output bias], .ok (Tensor.addT output bias))
            else
              let o1 := Tensor.addT output bias
              (ops2 ++ [Op.addOp output bias, Op.transposeOp o1 pCS],
               .ok (Tensor.transposeT o1 pCS))
      else
        let wSplit := Op.splitOp weights group (-1)
        let weightGroups := (List.range group).map fun i => Tensor.part weights group (-1) i
        let xinfo :=
          if cuda then
            ([wSplit, Op.splitOp x1 group 1], x1,
             (List.range group).map fun i => Tensor.part x1 group 1 i)
          else
            let xT := Tensor.transposeT x1 pSC
            ([wSplit, Op.transposeOp x1 pSC, Op.splitOp xT group (-1)], xT,
             (List.range group).map fun i => Tensor.part xT group (-1) i)
        let ops2 := ops1 ++ xinfo.1
        let x2 := xinfo.2.1
        let xs := xinfo.2.2
        let biasName := (inputDict (node.inputs.getD 2 "")).name
        if transpose then
          if dilations ≠ List.replicate spatialSize 1 then
            (ops2, .error .incompatibleDilation)
          else
            let env : TEnv :=
              { cuda := cuda
                d := spatialSize
                padMode := padMode
                strides := strides
                dilations := dilations
                pads := pads
                kernelShape := kernelShape
                outputShapeAttr := node.output_shape
                outputPaddingAttr := node.output_padding
                batchDim := xShape.getD (storageF.indexOf .N) none
                xSp := spatialF.map fun a => xShape.getD (storageF.indexOf a) none
                weightsShape := perm.map fun i => wv.shape.getD i none
                storageF := storageF
                computeF := computeF
                spatialF := spatialF
                cIdx := computeCIdx }
            let pairs := xs.zip weightGroups
            match tLoop env pairs with
            | (lops, .error e) => (ops2 ++ lops, .error e)
            | (lops, .ok convolved) =>
              let xLast := match pairs.getLast? with
                | some p => p.1
                | none => x2
              let asm := assemble cuda node.inputs.length biasName xLast computeCIdx pCS convolved
              (ops2 ++ lops ++ asm.1, .ok asm.2)
        else
          let adj : Except ConvError (List Op × List Tensor × PadMode) :=
            if node.auto_pad = some "SAME_LOWER" ∧ strides ≠ [1, 1] then
              if xRank = 4 then
                let spec : List (Int × Int) :=
                  if cuda then [(0, 0), (0, 0), (1, 1), (1, 1)]
                  else [(0, 0), (1, 1), (1, 1), (0, 0)]
                .ok (xs.map fun xi => Op.padOp xi spec, xs.map fun xi => Tensor.padT xi spec,
                     PadMode.VALID)
              else .error .padRankMismatch
            else .ok ([], xs, padMode)
          match adj with
          | .error e => (ops2, .error e)
          | .ok adj =>
            let xs2 := adj.2.1
            let padMode1 := adj.2.2
            let convolved := (xs2.zip weightGroups).map fun p =>
              Tensor.convolution p.1 p.2 padMode1 strides dilations computeF
            let convOps := (xs2.zip weightGroups).map fun p =>
              Op.convOp p.1 p.2 padMode1 strides dilations computeF
            let asm := assemble cuda node.inputs.length biasName x2 computeCIdx pCS convolved
            (ops2 ++ adj.1 ++ convOps ++ asm.1, .ok asm.2)

/-- Shape arguments of the transposed-convolution operations in a trace. -/
def convTransposeShapes (t : List Op) : List (List DynDim) :=
  t.filterMap fun op => match op with
    | .convTransposeOp _ _ _ sh _ _ _ => some sh
    | _ => none

/-- Rank tags of the transposed-convolution operations in a trace. -/
def convTransposeDims (t : List Op) : List Nat :=
  t.filterMap fun op => match op with
    | .convTransposeOp d _ _ _ _ _ _ => some d
    | _ => none

/-- Pad specifications of the pad operations in a trace. -/
def padSpecs (t : List Op) : List (List (Int × Int)) :=
  t.filterMap fun op => match op with
    | .padOp _ spec => some spec
    | _ => none

/-- Begin/size arguments of the slice operations in a trace. -/
def sliceArgs (t : List Op) : List (List Int × List DynDim) :=
  t.filterMap fun op => match op with
    | .sliceOp _ b s => some (b, s)
    | _ => none

/-- Padding modes of the direct-convolution operations in a trace. -/
def convPadModes (t : List Op) : List PadMode :=
  t.filterMap fun op => match op with
    | .convOp _ _ pm _ _ _ => some pm
    | _ => none

/-- Input-tensor arguments of the direct-convolution operations in a trace. -/
def convInputArgs (t : List Op) : List Tensor :=
  t.filterMap fun op => match op with
    | .convOp x _ _ _ _ _ => some x
    | _ => none

/-- The reference operand of the bias broadcast in a returned tensor, read off
the two shapes the reassembly tail can take. -/
def topBiasRef : Tensor → Option Tensor
  | .addT _ (.broadcastT r _ _) => some r
  | .transposeT (.addT _ (.broadcastT r _ _)) _ => some r
  | _ => none

/-- Bias-broadcast reference operand of a whole translation result. -/
def resultBiasRef (r : List Op × Except ConvError Tensor) : Option Tensor :=
  match r.2 with
  | .ok t => topBiasRef t
  | .error _ => none

/-- Input dictionary binding the data tensor, the weight tensor and a bias to
fixed handles with the given static shapes. -/
def dictOf (xs ws : List Dim) : String → TensorVal := fun s =>
  if s = "x" then ⟨"x", xs⟩ else if s = "w" then ⟨"w", ws⟩ else ⟨"b", [some 1]⟩

/-- Rank-4 example: data 1x4x5x5, weight 4x2x3x3, bias of size 2. -/
def dictStd : String → TensorVal := fun s =>
  if s = "x" then ⟨"x", [some 1, some 4, some 5, some 5]⟩
  else if s = "w" then ⟨"w", [some 4, some 2, some 3, some 3]⟩
  else ⟨"b", [some 2]⟩

/-- Rank-3 example: data 1x4x5, weight 5x4x3, bias of size 5. -/
def dictR3 : String → TensorVal := fun s =>
  if s = "x" then ⟨"x", [some 1, some 4, some 5]⟩
  else if s = "w" then ⟨"w", [some 5, some 4, some 3]⟩
  else ⟨"b", [some 5]⟩

/-- Rank-5 example: data 1x4x5x6x7, weight 4x2x3x3x3, bias of size 2. -/
def dictR5 : String → TensorVal := fun s =>
  if s = "x" then ⟨"x", [some 1, some 4, some 5, some 6, some 7]⟩
  else if s = "w" then ⟨"w", [some 4, some 2, some 3, some 3, some 3]⟩
  else ⟨"b", [some 2]⟩

/-- Rank-7 example (five spatial axes): unsupported for transposed convolution. -/
def dictR7 : String → TensorVal := fun s =>
  if s = "x" then ⟨"x", [some 1, some 4, some 5, some 5, some 5, some 5, some 5]⟩
  else if s = "w" then ⟨"w", [some 4, some 2, some 3, some 3, some 3, some 3, some 3]⟩
  else ⟨"b", [some 2]⟩

/-- Rank-4 example with four input channels for grouped convolution. -/
def dictGrp : String → TensorVal := fun s =>
  if s = "x" then ⟨"x", [some 1, some 4, some 8, some 8]⟩
  else if s = "w" then ⟨"w", [some 4, some 2, some 3, some 3]⟩
  else ⟨"b", [some 4]⟩

/-- Transposed convolution with the lower-aligned automatic padding mode. -/
def nodeSL : Node := { inputs := ["x", "w"], auto_pad := some "SAME_LOWER" }

/-- Attribute-free convolution node. -/
def nodePlain : Node := { inputs := ["x", "w"] }

/-- Same node with the kernel-shape attribute spelled out. -/
def nodePlainK : Node := { inputs := ["x", "w"], kernel_shape := some [3, 3] }

/-- Node whose kernel-shape attribute contradicts the weight tensor. -/
def nodeBadKernel : Node := { inputs := ["x", "w"], kernel_shape := some [9, 9] }

/-- Rank-1 lower-aligned convolution with unit strides. -/
def nodeC4cex : Node :=
  { inputs := ["x", "w"], strides := some [1], auto_pad := some "SAME_LOWER" }

/-- Rank-2 lower-aligned convolution with non-unit strides. -/
def nodeC4wit : Node :=
  { inputs := ["x", "w"], strides := some [2, 2], auto_pad := some "SAME_LOWER" }

/-- Rank-3 transposed convolution with an explicit output shape and pads. -/
def nodeC5cex : Node :=
  { inputs := ["x", "w"], pads := some [1, 2, 3, 4, 5, 6], output_shape := some [7, 8, 9] }

/-- Transposed convolution carrying both output_shape and output_padding. -/
def nodeC7cex : Node :=
  { inputs := ["x", "w"], output_shape := some [7, 7], output_padding := some [1, 1] }

/-- Transposed convolution of an unsupported spatial rank. -/
def nodeC8wit : Node := { inputs := ["x", "w"] }

/-- Grouped convolution with a bias input. -/
def nodeC10cex : Node := { inputs := ["x", "w", "b"], group := some 2 }

end OnnxTf

namespace OnnxTf

set_option maxHeartbeats 2000000

/-! Inversion lemmas for the stages of the translation. -/

theorem resolveKernelShape_error_inv (attr : Option (List Int)) (w : List Dim)
    (e : ConvError) (h : resolveKernelShape attr w = .error e) : e = .shapeMismatch := by
  unfold resolveKernelShape at h
  split at h
  · split at h
    · simp at h
    · injection h with h1; exact h1.symm
  · simp at h

theorem derivePadMode_error_inv (tp : Bool) (ap : Option String) (pads : List Int)
    (d : Nat) (x : Tensor) (e : ConvError)
    (h : derivePadMode tp ap pads d x = .error e) :
    e = .unsupportedOnBackend ∨ e = .invalidAttribute := by
  unfold derivePadMode at h
  split_ifs at h <;> simp_all

theorem derivePadMode_transpose_ops (ap : Option String) (pads : List Int)
    (d : Nat) (x : Tensor) (pm : PadMode) (x1 : Tensor) (ops : List Op)
    (h : derivePadMode true ap pads d x = .ok (pm, x1, ops)) :
    ops = [] ∧ x1 = x := by
  unfold derivePadMode at h
  split_ifs at h <;> simp_all

theorem derivePadMode_SL_nontranspose (pads : List Int) (d : Nat) (x : Tensor) :
    derivePadMode false (some "SAME_LOWER") pads d x = .ok (.SAME, x, []) := by
  simp [derivePadMode]

theorem derivePadMode_true_cases (ap : Option String) (pads : List Int) (d : Nat) (x : Tensor)
    (hap : ap = none ∨ ap = some "NOTSET" ∨ ap = some "SAME_UPPER" ∨ ap = some "VALID") :
    ∃ pm, derivePadMode true ap pads d x = .ok (pm, x, []) := by
  rcases hap with h | h | h | h <;> subst h
  · exact ⟨.NOTSET, by simp [derivePadMode]⟩
  · exact ⟨.NOTSET, by simp [derivePadMode]⟩
  · exact ⟨.SAME, by simp [derivePadMode]⟩
  · exact ⟨.VALID, by simp [derivePadMode]⟩

theorem oneT_error_inv (env : TEnv) (xi wi : Tensor) (ops : List Op) (e : ConvError)
    (h : oneT env xi wi = (ops, .error e)) :
    ops = [] ∧ e = .unimplementedRank ∧ ¬(env.d = 1 ∨ env.d = 2 ∨ env.d = 3) := by
  unfold oneT at h
  split at h
  · exact absurd (congrArg Prod.snd h) (by simp)
  · injection h with h1 h2
    injection h2 with h3
    exact ⟨h1.symm, h3.symm, by assumption⟩

theorem oneT_ok_of (env : TEnv) (xi wi : Tensor)
    (h : env.d = 1 ∨ env.d = 2 ∨ env.d = 3) :
    oneT env xi wi = ((oneTBody env xi wi).1, .ok (oneTBody env xi wi).2) := by
  unfold oneT
  rw [if_pos h]

theorem tLoop_ok_of (env : TEnv) (h : env.d = 1 ∨ env.d = 2 ∨ env.d = 3)
    (l : List (Tensor × Tensor)) :
    tLoop env l = (l.flatMap fun p => (oneTBody env p.1 p.2).1,
      .ok (l.map fun p => (oneTBody env p.1 p.2).2)) := by
  induction l with
  | nil => simp [tLoop]
  | cons p rest ih =>
    rw [tLoop, oneT_ok_of env p.1 p.2 h, ih]
    simp [List.flatMap]

theorem tLoop_error_inv (env : TEnv) (l : List (Tensor × Tensor)) (ops : List Op)
    (e : ConvError) (h : tLoop env l = (ops, .error e)) :
    ops = [] ∧ e = .unimplementedRank := by
  induction l with
  | nil => rw [tLoop] at h; exact absurd (congrArg Prod.snd h) (by simp)
  | cons p rest ih =>
    rw [tLoop] at h
    rcases h1 : oneT env p.1 p.2 with ⟨ops1, r1⟩
    rw [h1] at h
    rcases r1 with e1 | t1
    · obtain ⟨ho, he, hd⟩ := oneT_error_inv env p.1 p.2 ops1 e1 h1
      injection h with h2 h3
      injection h3 with h4
      exact ⟨h2 ▸ ho, h4 ▸ he⟩
    · have hd : env.d = 1 ∨ env.d = 2 ∨ env.d = 3 := by
        by_contra hd
        rw [oneT, if_neg hd] at h1
        exact absurd (congrArg Prod.snd h1) (by simp)
      rw [tLoop_ok_of env hd rest] at h
      simp at h

theorem getLast?_zip_map_range {α β : Type} (f : Nat → α) (h : Nat → β) (n : Nat) :
    (((List.range (n + 1)).map f).zip ((List.range (n + 1)).map h)).getLast?
      = some (f n, h n) := by
  rw [List.zip_map' f h, List.getLast?_map, List.range_succ]
  simp

/-! Computation rules for the trace extractors. -/

theorem padSpecs_nil : padSpecs [] = [] := rfl

theorem padSpecs_cons_transposeOp (t : Tensor) (p : List Nat) (l : List Op) :
    padSpecs (Op.transposeOp t p :: l) = padSpecs l := by
  simp [padSpecs, List.filterMap_cons]

theorem padSpecs_cons_splitOp (t : Tensor) (n : Nat) (a : Int) (l : List Op) :
    padSpecs (Op.splitOp t n a :: l) = padSpecs l := by
  simp [padSpecs, List.filterMap_cons]

theorem padSpecs_cons_padOp (t : Tensor) (s : List (Int × Int)) (l : List Op) :
    padSpecs (Op.padOp t s :: l) = s :: padSpecs l := by
  simp [padSpecs, List.filterMap_cons]

theorem padSpecs_cons_convOp (x w : Tensor) (pm : PadMode) (str dil : List Int)
    (f : Format) (l : List Op) :
    padSpecs (Op.convOp x w pm str dil f :: l) = padSpecs l := by
  simp [padSpecs, List.filterMap_cons]

theorem convPadModes_nil : convPadModes [] = [] := rfl

theorem convPadModes_cons_transposeOp (t : Tensor) (p : List Nat) (l : List Op) :
    convPadModes (Op.transposeOp t p :: l) = convPadModes l := by
  simp [convPadModes, List.filterMap_cons]

theorem convPadModes_cons_splitOp (t : Tensor) (n : Nat) (a : Int) (l : List Op) :
    convPadModes (Op.splitOp t n a :: l) = convPadModes l := by
  simp [convPadModes, List.filterMap_cons]

theorem convPadModes_cons_padOp (t : Tensor) (s : List (Int × Int)) (l : List Op) :
    convPadModes (Op.padOp t s :: l) = convPadModes l := by
  simp [convPadModes, List.filterMap_cons]

theorem convPadModes_cons_convOp (x w : Tensor) (pm : PadMode) (str dil : List Int)
    (f : Format) (l : List Op) :
    convPadModes (Op.convOp x w pm str dil f :: l) = pm :: convPadModes l := by
  simp [convPadModes, List.filterMap_cons]

theorem padSpecs_append (a b : List Op) : padSpecs (a ++ b) = padSpecs a ++ padSpecs b :=
  List.filterMap_append ..

theorem convPadModes_append (a b : List Op) :
    convPadModes (a ++ b) = convPadModes a ++ convPadModes b :=
  List.filterMap_append ..

theorem padSpecs_map_padOp {α : Type} (l : List α) (F : α → Tensor)
    (spec : List (Int × Int)) :
    padSpecs (l.map fun a => Op.padOp (F a) spec) = List.replicate l.length spec := by
  induction l with
  | nil => rfl
  | cons a t ih =>
    simp only [List.map_cons, padSpecs_cons_padOp, List.length_cons, List.replicate_succ, ih]

theorem padSpecs_map_convOp {α : Type} (l : List α) (F H : α → Tensor) (pm : PadMode)
    (str dil : List Int) (fmt : Format) :
    padSpecs (l.map fun a => Op.convOp (F a) (H a) pm str dil fmt) = [] := by
  induction l with
  | nil => rfl
  | cons a t ih => simp only [List.map_cons, padSpecs_cons_convOp, ih]

theorem convPadModes_map_convOp {α : Type} (l : List α) (F H : α → Tensor) (pm : PadMode)
    (str dil : List Int) (fmt : Format) :
    convPadModes (l.map fun a => Op.convOp (F a) (H a) pm str dil fmt)
      = List.replicate l.length pm := by
  induction l with
  | nil => rfl
  | cons a t ih =>
    simp only [List.map_cons, convPadModes_cons_convOp, List.length_cons,
      List.replicate_succ, ih]

theorem convPadModes_map_padOp {α : Type} (l : List α) (F : α → Tensor)
    (spec : List (Int × Int)) :
    convPadModes (l.map fun a => Op.padOp (F a) spec) = [] := by
  induction l with
  | nil => rfl
  | cons a t ih => simp only [List.map_cons, convPadModes_cons_padOp, ih]

theorem padSpecs_assemble (cuda : Bool) (n : Nat) (bn : String) (xr : Tensor) (ci : Nat)
    (p : List Nat) (cv : List Tensor) : padSpecs (assemble cuda n bn xr ci p cv).1 = [] := by
  unfold assemble; split <;> split <;> rfl

theorem convPadModes_assemble (cuda : Bool) (n : Nat) (bn : String) (xr : Tensor) (ci : Nat)
    (p : List Nat) (cv : List Tensor) :
    convPadModes (assemble cuda n bn xr ci p cv).1 = [] := by
  unfold assemble; split <;> split <;> rfl

end OnnxTf

namespace OnnxTf

/-- C1: for every node translated as a transposed convolution whose auto_pad
attribute is SAME_LOWER, and whose kernel-shape attribute does not already
trip the shape assertion, the translation fails with the
unsupported-on-backend condition, regardless of every other attribute value
(strides, dilations, pads, group, output_shape, output_padding) and of the
device capability. -/
theorem C1_same_lower_transpose_unsupported (cuda : Bool) (node : Node)
    (dict : String → TensorVal)
    (hap : node.auto_pad = some "SAME_LOWER")
    (hk : ∃ k, resolveKernelShape node.kernel_shape
      (dict (node.inputs.getD 1 "")).shape = .ok k) :
    (conv cuda node dict true).2 = .error .unsupportedOnBackend := by
  obtain ⟨k, hk⟩ := hk
  simp only [conv, hk, derivePadMode, hap]
  simp

/-- Witness for C1 at a concrete transposed convolution. -/
theorem C1_same_lower_transpose_unsupported_witness :
    (conv true nodeSL dictStd true).2 = .error .unsupportedOnBackend :=
  C1_same_lower_transpose_unsupported true nodeSL dictStd rfl ⟨_, rfl⟩

/-- C2 counterexample: on a transposed convolution with auto_pad SAME_LOWER the
translation fails, yet the weight-transpose operation has already been emitted,
so the trace at the failure is not empty as the claim requires. -/
theorem C2_failure_after_emission_counterexample :
    conv true nodeSL dictStd true
      = ([Op.transposeOp (.input "w") [2, 3, 1, 0]], .error .unsupportedOnBackend)
    ∧ ([Op.transposeOp (.input "w") [2, 3, 1, 0]] : List Op) ≠ [] :=
  ⟨rfl, by simp⟩

/-- C2 (amended): on every failing translation no pad, convolution,
concatenation, slice or add operation has been emitted, but the failure does
not precede every tensor operation: a ShapeMismatch failure aborts with an
empty trace; an UnsupportedOnBackend or InvalidAttribute failure is raised
with exactly the weight transposition already emitted; an IncompatibleDilation
or UnimplementedRank failure is raised after exactly the weight transposition,
the weight split and the input split (preceded, on the unaccelerated path, by
the input layout transposition); and the pad-rank failure of the stride
adjustment is raised either right after the weight transposition (group-1 fast
path) or after the transposition and the splits (grouped path). -/
theorem C2_failing_trace_characterization (cuda : Bool) (node : Node)
    (dict : String → TensorVal) (tp : Bool)
    (tr : List Op) (e : ConvError) (h : conv cuda node dict tp = (tr, .error e)) :
    (e = .shapeMismatch ∧ tr = [])
    ∨ ((e = .unsupportedOnBackend ∨ e = .invalidAttribute)
        ∧ ∃ t p, tr = [Op.transposeOp t p])
    ∨ ((e = .incompatibleDilation ∨ e = .unimplementedRank)
        ∧ tr.map Op.kind
            = if cuda then [.transposeK, .splitK, .splitK]
              else [.transposeK, .splitK, .transposeK, .splitK])
    ∨ (e = .padRankMismatch
        ∧ (tr.map Op.kind = [.transposeK]
           ∨ tr.map Op.kind
               = if cuda then [.transposeK, .splitK, .splitK]
                 else [.transposeK, .splitK, .transposeK, .splitK])) := by
  simp only [conv] at h
  split at h
  next kerr heq =>
    injection h with h1 h2
    injection h2 with h3
    exact Or.inl ⟨h3 ▸ resolveKernelShape_error_inv _ _ _ heq, h1.symm⟩
  next k hk =>
    split at h
    next perr heq =>
      injection h with h1 h2
      injection h2 with h3
      exact Or.inr (Or.inl ⟨h3 ▸ derivePadMode_error_inv _ _ _ _ _ _ heq, _, _, h1.symm⟩)
    next pmr hpm =>
      obtain ⟨pm, x1, pops⟩ := pmr
      split at h
      next hgt =>
        split at h
        next e1 heqadj =>
          split at heqadj
          next hsl =>
            split at heqadj
            next hr4 =>
              split at heqadj <;> exact absurd heqadj (by simp)
            next hr4 =>
              rw [hgt.2, hsl.1, derivePadMode_SL_nontranspose] at hpm
              injection hpm with hpm2
              injection hpm2 with hpm3 hpm4
              injection hpm4 with hpm5 hpm6
              subst hpm6
              injection heqadj with heqe
              injection h with h1 h2
              injection h2 with h3
              refine Or.inr (Or.inr (Or.inr ⟨h3.symm.trans heqe.symm, Or.inl ?_⟩))
              rw [← h1]
              rfl
          next hsl =>
            exact absurd heqadj (by simp)
        next v heqadj =>
          split at h <;> split at h <;>
            exact absurd (congrArg Prod.snd h) (by simp)
      · split at h
        · next htp =>
          subst htp
          obtain ⟨hpops, hx1⟩ := derivePadMode_transpose_ops _ _ _ _ _ _ _ hpm
          subst hpops
          split at h
          · injection h with h1 h2
            injection h2 with h3
            refine Or.inr (Or.inr (Or.inl ⟨Or.inl h3.symm, ?_⟩))
            rw [← h1]
            split
            next hc => simp [Op.kind, hc]
            next hc => simp [Op.kind, hc]
          · split at h
            next lops e2 heq2 =>
              obtain ⟨hl, he2⟩ := tLoop_error_inv _ _ _ _ heq2
              subst hl
              injection h with h1 h2
              injection h2 with h3
              refine Or.inr (Or.inr (Or.inl ⟨Or.inr (h3.symm.trans he2), ?_⟩))
              rw [← h1]
              split
              next hc => simp [Op.kind, hc]
              next hc => simp [Op.kind, hc]
            next lops convd heq2 =>
              exact absurd (congrArg Prod.snd h) (by simp)
        · next hnt =>
          split at h
          next e1 heqadj =>
            split at heqadj
            next hsl =>
              split at heqadj
              next hr4 =>
                exact absurd heqadj (by simp)
              next hr4 =>
                have htp : tp = false := by
                  cases tp
                  · rfl
                  · exact absurd rfl hnt
                rw [htp, hsl.1, derivePadMode_SL_nontranspose] at hpm
                injection hpm with hpm2
                injection hpm2 with hpm3 hpm4
                injection hpm4 with hpm5 hpm6
                subst hpm6
                injection heqadj with heqe
                injection h with h1 h2
                injection h2 with h3
                refine Or.inr (Or.inr (Or.inr ⟨h3.symm.trans heqe.symm, Or.inr ?_⟩))
                rw [← h1]
                split
                next hc => simp [Op.kind, hc]
                next hc => simp [Op.kind, hc]
            next hsl =>
              exact absurd heqadj (by simp)
          next v heqadj =>
            exact absurd (congrArg Prod.snd h) (by simp)

/-- Witness for C2 at the concrete SAME_LOWER transposed convolution. -/
theorem C2_failing_trace_characterization_witness :
    (ConvError.unsupportedOnBackend = .shapeMismatch
      ∧ ([Op.transposeOp (.input "w") [2, 3, 1, 0]] : List Op) = [])
    ∨ ((ConvError.unsupportedOnBackend = .unsupportedOnBackend
        ∨ ConvError.unsupportedOnBackend = .invalidAttribute)
        ∧ ∃ t p, ([Op.transposeOp (.input "w") [2, 3, 1, 0]] : List Op)
            = [Op.transposeOp t p])
    ∨ ((ConvError.unsupportedOnBackend = .incompatibleDilation
        ∨ ConvError.unsupportedOnBackend = .unimplementedRank)
        ∧ ([Op.transposeOp (.input "w") [2, 3, 1, 0]] : List Op).map Op.kind
            = if true then [.transposeK, .splitK, .splitK]
              else [.transposeK, .splitK, .transposeK, .splitK])
    ∨ (ConvError.unsupportedOnBackend = .padRankMismatch
        ∧ (([Op.transposeOp (.input "w") [2, 3, 1, 0]] : List Op).map Op.kind
              = [.transposeK]
           ∨ ([Op.transposeOp (.input "w") [2, 3, 1, 0]] : List Op).map Op.kind
               = if true then [.transposeK, .splitK, .splitK]
                 else [.transposeK, .splitK, .transposeK, .splitK])) :=
  C2_failing_trace_characterization true nodeSL dictStd true
    [Op.transposeOp (.input "w") [2, 3, 1, 0]] .unsupportedOnBackend rfl

/-- C3: a kernel-shape attribute that differs from the weight tensor's trailing
dimensions makes the whole translation fail with the shape-mismatch condition
before any tensor operation is emitted (empty trace); an absent kernel-shape
attribute behaves exactly as the attribute set to the weight tensor's trailing
dimensions. -/
theorem C3_kernel_shape_check (cuda : Bool) (node : Node) (dict : String → TensorVal)
    (tp : Bool) :
    (∀ ks, node.kernel_shape = some ks →
      (dict (node.inputs.getD 1 "")).shape.drop 2 ≠ ks.map some →
      conv cuda node dict tp = ([], .error .shapeMismatch))
    ∧ (∀ l, node.kernel_shape = none →
      (dict (node.inputs.getD 1 "")).shape.drop 2 = l.map some →
      conv cuda node dict tp = conv cuda { node with kernel_shape := some l } dict tp) := by
  constructor
  · intro ks hk hmm
    have h1 : resolveKernelShape node.kernel_shape (dict (node.inputs.getD 1 "")).shape
        = .error .shapeMismatch := by
      rw [hk]; simp only [resolveKernelShape]; rw [if_neg hmm]
    simp only [conv, h1]
  · intro l hk hs
    have h1 : resolveKernelShape node.kernel_shape (dict (node.inputs.getD 1 "")).shape
        = .ok (l.map some) := by
      rw [hk]; simp only [resolveKernelShape]; rw [hs]
    have h2 : resolveKernelShape (some l) (dict (node.inputs.getD 1 "")).shape
        = .ok (l.map some) := by
      simp only [resolveKernelShape]; rw [if_pos hs]
    simp only [conv, h1, h2]

/-- Witness for C3: the mismatching attribute [9, 9] against a 4x2x3x3 weight
aborts with an empty trace, and the absent attribute equals the attribute
[3, 3] read off the weight. -/
theorem C3_kernel_shape_check_witness :
    conv true nodeBadKernel dictStd false = ([], .error .shapeMismatch)
    ∧ conv true nodePlain dictStd false = conv true nodePlainK dictStd false :=
  ⟨(C3_kernel_shape_check true nodeBadKernel dictStd false).1 [9, 9] rfl (by decide),
   (C3_kernel_shape_check true nodePlain dictStd false).2 [3, 3] rfl (by decide)⟩

/-- C9: evaluation at the failing input.  On the unaccelerated path the group-1
fast path hands the untransposed storage-layout input directly to the
convolution primitive labelled with the compute layout, emitting no
storage-to-compute transposition of the input, yet it still applies the
compute-to-storage transposition to the output, so input and output layout
handling is not symmetric and the claimed if-and-only-if discipline is broken. -/
theorem C9_fast_path_layout_asymmetry :
    conv false nodePlain dictStd false
      = ([Op.transposeOp (.input "w") [2, 3, 1, 0],
          Op.convOp (.input "x") (.transposeT (.input "w") [2, 3, 1, 0]) .VALID [1, 1] [1, 1]
            (computeFormat false 4),
          Op.transposeOp
            (.convolution (.input "x") (.transposeT (.input "w") [2, 3, 1, 0]) .VALID [1, 1]
              [1, 1] (computeFormat false 4)) [0, 3, 1, 2]],
         .ok (.transposeT
            (.convolution (.input "x") (.transposeT (.input "w") [2, 3, 1, 0]) .VALID [1, 1]
              [1, 1] (computeFormat false 4)) [0, 3, 1, 2]))
    ∧ computeFormat false 4 ≠ storageFormat 4 := ⟨rfl, by decide⟩

/-- C10 counterexample: in the non-transposed grouped path (Python 3 scoping:
the list comprehension of lines 286-295 does not rebind x) the bias broadcast
reference is the whole input tensor, not the last group's input slice. -/
theorem C10_bias_reference_counterexample :
    (conv true nodeC10cex dictGrp false).2
      = .ok (.addT
          (.concatT
            [.convolution (.part (.input "x") 2 1 0)
                (.part (.transposeT (.input "w") [2, 3, 1, 0]) 2 (-1) 0) .VALID [1, 1] [1, 1]
                (computeFormat true 4),
             .convolution (.part (.input "x") 2 1 1)
                (.part (.transposeT (.input "w") [2, 3, 1, 0]) 2 (-1) 1) .VALID [1, 1] [1, 1]
                (computeFormat true 4)] 1)
          (.broadcastT (.input "x") (.input "b") 1))
    ∧ (Tensor.input "x" : Tensor) ≠ .part (.input "x") 2 1 1 :=
  ⟨rfl, nofun⟩

end OnnxTf

namespace OnnxTf

theorem sameLowerFastAux (cuda : Bool) (node : Node) (dict : String → TensorVal)
    (k : List Dim)
    (hk : resolveKernelShape node.kernel_shape (dict (node.inputs.getD 1 "")).shape = .ok k)
    (hap : node.auto_pad = some "SAME_LOWER")
    (hg : node.group.getD 1 = 1) :
    (node.strides.getD (List.replicate ((dict (node.inputs.getD 0 "")).shape.length - 2) 1)
        = [1, 1] →
      convPadModes (conv cuda node dict false).1 = [.SAME]
      ∧ padSpecs (conv cuda node dict false).1 = [])
    ∧ (node.strides.getD (List.replicate ((dict (node.inputs.getD 0 "")).shape.length - 2) 1)
        ≠ [1, 1] →
      (dict (node.inputs.getD 0 "")).shape.length = 4 →
      convPadModes (conv cuda node dict false).1 = [.VALID]
      ∧ padSpecs (conv cuda node dict false).1
          = [if cuda then [(0, 0), (0, 0), (1, 1), (1, 1)]
             else [(0, 0), (1, 1), (1, 1), (0, 0)]])
    ∧ (node.strides.getD (List.replicate ((dict (node.inputs.getD 0 "")).shape.length - 2) 1)
        ≠ [1, 1] →
      (dict (node.inputs.getD 0 "")).shape.length ≠ 4 →
      (conv cuda node dict false).2 = .error .padRankMismatch
      ∧ convPadModes (conv cuda node dict false).1 = []
      ∧ padSpecs (conv cuda node dict false).1 = []) := by
  refine ⟨?_, ?_, ?_⟩
  · intro h1
    cases cuda <;>
      (simp only [conv, hk, derivePadMode_SL_nontranspose, hap, hg, h1, eq_self_iff_true, Bool.false_eq_true,
         and_self, and_true, true_and, if_true, if_false, ne_eq, not_true_eq_false,
         not_false_eq_true, and_false, false_and]
       refine ⟨?_, ?_⟩ <;> (split <;> simp [convPadModes, padSpecs]))
  · intro h1 h4
    rw [h4] at h1
    cases cuda <;>
      (simp only [conv, hk, derivePadMode_SL_nontranspose, hap, hg, h1, h4, eq_self_iff_true, Bool.false_eq_true,
         and_self, and_true, true_and, if_true, if_false, ne_eq, not_true_eq_false,
         not_false_eq_true, and_false, false_and]
       refine ⟨?_, ?_⟩ <;> (split <;> simp [convPadModes, padSpecs]))
  · intro h1 h4
    cases cuda <;>
      (simp only [conv, hk, derivePadMode_SL_nontranspose, hap, hg, h1, h4, eq_self_iff_true, Bool.false_eq_true,
         and_self, and_true, true_and, if_true, if_false, ne_eq, not_true_eq_false,
         not_false_eq_true, and_false, false_and]
       simp [convPadModes, padSpecs])

theorem sameLowerGroupedAux (cuda : Bool) (node : Node) (dict : String → TensorVal)
    (k : List Dim) (g : Nat)
    (hk : resolveKernelShape node.kernel_shape (dict (node.inputs.getD 1 "")).shape = .ok k)
    (hap : node.auto_pad = some "SAME_LOWER")
    (hg : node.group.getD 1 = g) (hne : ¬g = 1) :
    (node.strides.getD (List.replicate ((dict (node.inputs.getD 0 "")).shape.length - 2) 1)
        = [1, 1] →
      convPadModes (conv cuda node dict false).1 = List.replicate g .SAME
      ∧ padSpecs (conv cuda node dict false).1 = [])
    ∧ (node.strides.getD (List.replicate ((dict (node.inputs.getD 0 "")).shape.length - 2) 1)
        ≠ [1, 1] →
      (dict (node.inputs.getD 0 "")).shape.length = 4 →
      convPadModes (conv cuda node dict false).1 = List.replicate g .VALID
      ∧ padSpecs (conv cuda node dict false).1
          = List.replicate g
              (if cuda then [(0, 0), (0, 0), (1, 1), (1, 1)]
               else [(0, 0), (1, 1), (1, 1), (0, 0)]))
    ∧ (node.strides.getD (List.replicate ((dict (node.inputs.getD 0 "")).shape.length - 2) 1)
        ≠ [1, 1] →
      (dict (node.inputs.getD 0 "")).shape.length ≠ 4 →
      (conv cuda node dict false).2 = .error .padRankMismatch
      ∧ convPadModes (conv cuda node dict false).1 = []
      ∧ padSpecs (conv cuda node dict false).1 = []) := by
  refine ⟨?_, ?_, ?_⟩
  · intro h1
    cases cuda <;>
      (simp only [conv, hk, derivePadMode_SL_nontranspose, hap, hg, h1, hne, eq_self_iff_true, Bool.false_eq_true,
         and_self, and_true, true_and, if_true, if_false, ne_eq, not_true_eq_false,
         not_false_eq_true, and_false, false_and]
       refine ⟨?_, ?_⟩ <;>
         simp [List.zip_map', Function.comp_def, padSpecs_append, convPadModes_append,
           padSpecs_nil, padSpecs_cons_transposeOp, padSpecs_cons_splitOp,
           padSpecs_cons_padOp, padSpecs_cons_convOp, convPadModes_nil,
           convPadModes_cons_transposeOp, convPadModes_cons_splitOp, convPadModes_cons_padOp,
           convPadModes_cons_convOp, padSpecs_map_padOp, padSpecs_map_convOp,
           convPadModes_map_convOp, convPadModes_map_padOp, padSpecs_assemble,
           convPadModes_assemble])
  · intro h1 h4
    rw [h4] at h1
    cases cuda <;>
      (simp only [conv, hk, derivePadMode_SL_nontranspose, hap, hg, h1, h4, hne,
         eq_self_iff_true, Bool.false_eq_true, and_self, and_true, true_and, if_true, if_false, ne_eq,
         not_true_eq_false, not_false_eq_true, and_false, false_and]
       refine ⟨?_, ?_⟩ <;>
         simp [List.zip_map', Function.comp_def, padSpecs_append, convPadModes_append,
           padSpecs_nil, padSpecs_cons_transposeOp, padSpecs_cons_splitOp,
           padSpecs_cons_padOp, padSpecs_cons_convOp, convPadModes_nil,
           convPadModes_cons_transposeOp, convPadModes_cons_splitOp, convPadModes_cons_padOp,
           convPadModes_cons_convOp, padSpecs_map_padOp, padSpecs_map_convOp,
           convPadModes_map_convOp, convPadModes_map_padOp, padSpecs_assemble,
           convPadModes_assemble])
  · intro h1 h4
    cases cuda <;>
      (simp only [conv, hk, derivePadMode_SL_nontranspose, hap, hg, h1, h4, hne,
         eq_self_iff_true, Bool.false_eq_true, and_self, and_true, true_and, if_true, if_false, ne_eq,
         not_true_eq_false, not_false_eq_true, and_false, false_and]
       simp [convPadModes, padSpecs])

/-- C4 counterexample: a rank-1 non-transposed SAME_LOWER convolution with the
all-unit strides attribute [1] does not compute with the SAME mode: the stride
test compares against the two-element literal [1, 1], the branch then attempts
the fixed rank-4 pad on the rank-3 input, and the backend rejects that paddings
argument at graph construction, so the translation aborts with the pad-rank
failure and no convolution is ever emitted. -/
theorem C4_same_lower_rank1_counterexample :
    (conv true nodeC4cex dictR3 false).2 = .error .padRankMismatch
    ∧ convPadModes (conv true nodeC4cex dictR3 false).1 = []
    ∧ padSpecs (conv true nodeC4cex dictR3 false).1 = []
    ∧ nodeC4cex.strides = some [1]
    ∧ ([] : List PadMode) ≠ [.SAME] :=
  ⟨rfl, rfl, rfl, rfl, by decide⟩

/-- C4 (amended): for every non-transposed convolution with auto_pad SAME_LOWER
(kernel check passing), the compute mode is SAME exactly when the resolved
strides equal the two-element literal [1, 1]; when the strides differ from that
literal the code attempts a fixed rank-4 pad specification of one unit on each
side of two axes — the last two axes on the accelerated path and axes 1 and 2
on the unaccelerated path.  On a rank-4 input the pad is emitted (once in the
group-1 fast path, applied there to the not-yet-transposed storage-layout
input; per channel slice in the grouped path) and the compute mode becomes
Valid; on an input of any other rank the backend rejects the rank-4 paddings
argument at graph construction and the translation aborts with the pad-rank
failure, emitting no pad and no convolution — so at spatial ranks 1 and 3
all-unit strides still miss the [1, 1] literal and the translation aborts
instead of computing with SAME. -/
theorem C4_same_lower_stride_literal (cuda : Bool) (node : Node)
    (dict : String → TensorVal) (k : List Dim)
    (hk : resolveKernelShape node.kernel_shape (dict (node.inputs.getD 1 "")).shape = .ok k)
    (hap : node.auto_pad = some "SAME_LOWER") :
    (node.group.getD 1 = 1 →
      (node.strides.getD
          (List.replicate ((dict (node.inputs.getD 0 "")).shape.length - 2) 1) = [1, 1] →
        convPadModes (conv cuda node dict false).1 = [.SAME]
        ∧ padSpecs (conv cuda node dict false).1 = [])
      ∧ (node.strides.getD
          (List.replicate ((dict (node.inputs.getD 0 "")).shape.length - 2) 1) ≠ [1, 1] →
        (dict (node.inputs.getD 0 "")).shape.length = 4 →
        convPadModes (conv cuda node dict false).1 = [.VALID]
        ∧ padSpecs (conv cuda node dict false).1
            = [if cuda then [(0, 0), (0, 0), (1, 1), (1, 1)]
               else [(0, 0), (1, 1), (1, 1), (0, 0)]])
      ∧ (node.strides.getD
          (List.replicate ((dict (node.inputs.getD 0 "")).shape.length - 2) 1) ≠ [1, 1] →
        (dict (node.inputs.getD 0 "")).shape.length ≠ 4 →
        (conv cuda node dict false).2 = .error .padRankMismatch
        ∧ convPadModes (conv cuda node dict false).1 = []
        ∧ padSpecs (conv cuda node dict false).1 = []))
    ∧ (∀ g, node.group.getD 1 = g → ¬g = 1 →
      (node.strides.getD
          (List.replicate ((dict (node.inputs.getD 0 "")).shape.length - 2) 1) = [1, 1] →
        convPadModes (conv cuda node dict false).1 = List.replicate g .SAME
        ∧ padSpecs (conv cuda node dict false).1 = [])
      ∧ (node.strides.getD
          (List.replicate ((dict (node.inputs.getD 0 "")).shape.length - 2) 1) ≠ [1, 1] →
        (dict (node.inputs.getD 0 "")).shape.length = 4 →
        convPadModes (conv cuda node dict false).1 = List.replicate g .VALID
        ∧ padSpecs (conv cuda node dict false).1
            = List.replicate g
                (if cuda then [(0, 0), (0, 0), (1, 1), (1, 1)]
                 else [(0, 0), (1, 1), (1, 1), (0, 0)]))
      ∧ (node.strides.getD
          (List.replicate ((dict (node.inputs.getD 0 "")).shape.length - 2) 1) ≠ [1, 1] →
        (dict (node.inputs.getD 0 "")).shape.length ≠ 4 →
        (conv cuda node dict false).2 = .error .padRankMismatch
        ∧ convPadModes (conv cuda node dict false).1 = []
        ∧ padSpecs (conv cuda node dict false).1 = [])) :=
  ⟨fun hg => sameLowerFastAux cuda node dict k hk hap hg,
   fun g hg hne => sameLowerGroupedAux cuda node dict k g hk hap hg hne⟩

/-- Witness for C4 at a concrete rank-2 SAME_LOWER convolution with strides
[2, 2] on the accelerated path. -/
theorem C4_same_lower_stride_literal_witness :
    convPadModes (conv true nodeC4wit dictStd false).1 = [.VALID]
    ∧ padSpecs (conv true nodeC4wit dictStd false).1 = [[(0, 0), (0, 0), (1, 1), (1, 1)]] :=
  (((C4_same_lower_stride_literal true nodeC4wit dictStd [some 3, some 3] rfl rfl).1
    rfl).2.1 (by decide)) rfl

end OnnxTf

namespace OnnxTf

/-- C5 counterexample: at spatial rank 3 with an explicit output_shape, only the
last two entries of output_shape are consulted (Python output_shape[-2:]), so
the shape argument handed to the primitive has two spatial entries 8+1+4 and
9+2+5 instead of the claimed three entries 7+1+4, 8+2+5 and 9+3+6. -/
theorem C5_rank3_output_shape_counterexample :
    convTransposeShapes (conv true nodeC5cex dictR5 true).1
      = [[.known (some 1), .known (some 2), .known (some 13), .known (some 16)]]
    ∧ ([[.known (some 1), .known (some 2), .known (some 13), .known (some 16)]] :
          List (List DynDim))
      ≠ [[.known (some 1), .known (some 2), .known (some 12), .known (some 15),
          .known (some 18)]] :=
  ⟨rfl, by decide⟩

/-- C5 (amended): for a transposed convolution in the ExplicitWithValid mode with
an explicit output_shape attribute, the spatial extents passed to the primitive
are output_shape[i] + pads[begin,i] + pads[end,i] at spatial ranks 1 and 2;
at rank 3 only the last two entries of output_shape are consulted, paired with
the begin and end pads of spatial axes 0 and 1, so one spatial axis is dropped
and on the unaccelerated layout the Python insert clamps, appending the channel
entry after the two spatial entries.  Without an output_shape the extent at
every axis is strides[i]*(input_spatial[i]-1) + (kernel[i]-1)*1 + 1 at all
three supported ranks (the dilation check forces unit dilations here).  The
channel entry is placed at the compute-format channel position by the clamping
insert throughout. -/
theorem C5_explicit_with_valid_shape_argument :
    (∀ (cuda : Bool) (b c s1 m cw k1 t1 o1 p1 p2 : Int),
      convTransposeShapes
        ((conv cuda
          { inputs := ["x", "w"], strides := some [t1], pads := some [p1, p2],
            output_shape := some [o1] }
          (dictOf [some b, some c, some s1] [some m, some cw, some k1]) true).1)
        = [pyInsert [DynDim.known (some b), .known (some (o1 + p1 + p2))]
            ((computeFormat cuda 3).indexOf Ax.C) (.known (some cw))])
    ∧ (∀ (cuda : Bool) (b c s1 s2 m cw k1 k2 t1 t2 o1 o2 p1 p2 p3 p4 : Int),
      convTransposeShapes
        ((conv cuda
          { inputs := ["x", "w"], strides := some [t1, t2], pads := some [p1, p2, p3, p4],
            output_shape := some [o1, o2] }
          (dictOf [some b, some c, some s1, some s2] [some m, some cw, some k1, some k2])
          true).1)
        = [pyInsert [DynDim.known (some b), .known (some (o1 + p1 + p3)),
             .known (some (o2 + p2 + p4))]
            ((computeFormat cuda 4).indexOf Ax.C) (.known (some cw))])
    ∧ (∀ (cuda : Bool) (b c s1 s2 s3 m cw k1 k2 k3 t1 t2 t3 o1 o2 o3 p1 p2 p3 p4 p5 p6 : Int),
      convTransposeShapes
        ((conv cuda
          { inputs := ["x", "w"], strides := some [t1, t2, t3],
            pads := some [p1, p2, p3, p4, p5, p6], output_shape := some [o1, o2, o3] }
          (dictOf [some b, some c, some s1, some s2, some s3]
            [some m, some cw, some k1, some k2, some k3]) true).1)
        = [pyInsert [DynDim.known (some b), .known (some (o2 + p1 + p4)),
             .known (some (o3 + p2 + p5))]
            ((computeFormat cuda 5).indexOf Ax.C) (.known (some cw))])
    ∧ (∀ (cuda : Bool) (b c s1 m cw k1 t1 p1 p2 : Int),
      convTransposeShapes
        ((conv cuda
          { inputs := ["x", "w"], strides := some [t1], pads := some [p1, p2] }
          (dictOf [some b, some c, some s1] [some m, some cw, some k1]) true).1)
        = [pyInsert [DynDim.known (some b), .known (some (t1 * (s1 - 1) + (k1 - 1) * 1 + 1))]
            ((computeFormat cuda 3).indexOf Ax.C) (.known (some cw))])
    ∧ (∀ (cuda : Bool) (b c s1 s2 m cw k1 k2 t1 t2 p1 p2 p3 p4 : Int),
      convTransposeShapes
        ((conv cuda
          { inputs := ["x", "w"], strides := some [t1, t2], pads := some [p1, p2, p3, p4] }
          (dictOf [some b, some c, some s1, some s2] [some m, some cw, some k1, some k2])
          true).1)
        = [pyInsert [DynDim.known (some b), .known (some (t1 * (s1 - 1) + (k1 - 1) * 1 + 1)),
             .known (some (t2 * (s2 - 1) + (k2 - 1) * 1 + 1))]
            ((computeFormat cuda 4).indexOf Ax.C) (.known (some cw))])
    ∧ (∀ (cuda : Bool) (b c s1 s2 s3 m cw k1 k2 k3 t1 t2 t3 p1 p2 p3 p4 p5 p6 : Int),
      convTransposeShapes
        ((conv cuda
          { inputs := ["x", "w"], strides := some [t1, t2, t3],
            pads := some [p1, p2, p3, p4, p5, p6] }
          (dictOf [some b, some c, some s1, some s2, some s3]
            [some m, some cw, some k1, some k2, some k3]) true).1)
        = [pyInsert [DynDim.known (some b), .known (some (t1 * (s1 - 1) + (k1 - 1) * 1 + 1)),
             .known (some (t2 * (s2 - 1) + (k2 - 1) * 1 + 1)),
             .known (some (t3 * (s3 - 1) + (k3 - 1) * 1 + 1))]
            ((computeFormat cuda 5).indexOf Ax.C) (.known (some cw))]) := by
  refine ⟨?_, ?_, ?_, ?_, ?_, ?_⟩ <;> intros <;> rename Bool => cuda <;> cases cuda <;>
    first
      | rfl
      | (simp only [show ∀ t s k : Int,
            t * (s - 1) + (k - 1) * 1 + 1 = t * s - t + (k - 1) * 1 + 1
            from fun t s k => by ring]
         rfl)

end OnnxTf

namespace OnnxTf

/-- C6: for every transposed convolution with auto_pad VALID the shape argument
of the primitive has spatial extents strides[i]*(input_spatial[i]-1)+kernel[i],
and with auto_pad SAME_UPPER strides[i]*input_spatial[i], at every supported
spatial rank; the output_shape and output_padding attributes are quantified
arbitrarily and never consulted, and no slice or pad operation is emitted (no
post-hoc cropping). -/
theorem C6_auto_pad_inferred_shapes :
    (∀ (cuda : Bool) (b c s1 m cw k1 t1 : Int) (os opd : Option (List Int)),
      convTransposeShapes
        ((conv cuda
          { inputs := ["x", "w"], strides := some [t1], auto_pad := some "VALID",
            output_shape := os, output_padding := opd }
          (dictOf [some b, some c, some s1] [some m, some cw, some k1]) true).1)
        = [([DynDim.known (some b), .known (some (t1 * (s1 - 1) + k1))].insertIdx
            ((computeFormat cuda 3).indexOf Ax.C) (.known (some cw)))]
      ∧ sliceArgs ((conv cuda
          { inputs := ["x", "w"], strides := some [t1], auto_pad := some "VALID",
            output_shape := os, output_padding := opd }
          (dictOf [some b, some c, some s1] [some m, some cw, some k1]) true).1) = []
      ∧ padSpecs ((conv cuda
          { inputs := ["x", "w"], strides := some [t1], auto_pad := some "VALID",
            output_shape := os, output_padding := opd }
          (dictOf [some b, some c, some s1] [some m, some cw, some k1]) true).1) = [])
    ∧ (∀ (cuda : Bool) (b c s1 s2 m cw k1 k2 t1 t2 : Int) (os opd : Option (List Int)),
      convTransposeShapes
        ((conv cuda
          { inputs := ["x", "w"], strides := some [t1, t2], auto_pad := some "VALID",
            output_shape := os, output_padding := opd }
          (dictOf [some b, some c, some s1, some s2] [some m, some cw, some k1, some k2])
          true).1)
        = [([DynDim.known (some b), .known (some (t1 * (s1 - 1) + k1)),
             .known (some (t2 * (s2 - 1) + k2))].insertIdx
            ((computeFormat cuda 4).indexOf Ax.C) (.known (some cw)))]
      ∧ sliceArgs ((conv cuda
          { inputs := ["x", "w"], strides := some [t1, t2], auto_pad := some "VALID",
            output_shape := os, output_padding := opd }
          (dictOf [some b, some c, some s1, some s2] [some m, some cw, some k1, some k2])
          true).1) = []
      ∧ padSpecs ((conv cuda
          { inputs := ["x", "w"], strides := some [t1, t2], auto_pad := some "VALID",
            output_shape := os, output_padding := opd }
          (dictOf [some b, some c, some s1, some s2] [some m, some cw, some k1, some k2])
          true).1) = [])
    ∧ (∀ (cuda : Bool) (b c s1 s2 s3 m cw k1 k2 k3 t1 t2 t3 : Int) (os opd : Option (List Int)),
      convTransposeShapes
        ((conv cuda
          { inputs := ["x", "w"], strides := some [t1, t2, t3], auto_pad := some "VALID",
            output_shape := os, output_padding := opd }
          (dictOf [some b, some c, some s1, some s2, some s3]
            [some m, some cw, some k1, some k2, some k3]) true).1)
        = [([DynDim.known (some b), .known (some (t1 * (s1 - 1) + k1)),
             .known (some (t2 * (s2 - 1) + k2)), .known (some (t3 * (s3 - 1) + k3))].insertIdx
            ((computeFormat cuda 5).indexOf Ax.C) (.known (some cw)))]
      ∧ sliceArgs ((conv cuda
          { inputs := ["x", "w"], strides := some [t1, t2, t3], auto_pad := some "VALID",
            output_shape := os, output_padding := opd }
          (dictOf [some b, some c, some s1, some s2, some s3]
            [some m, some cw, some k1, some k2, some k3]) true).1) = []
      ∧ padSpecs ((conv cuda
          { inputs := ["x", "w"], strides := some [t1, t2, t3], auto_pad := some "VALID",
            output_shape := os, output_padding := opd }
          (dictOf [some b, some c, some s1, some s2, some s3]
            [some m, some cw, some k1, some k2, some k3]) true).1) = [])
    ∧ (∀ (cuda : Bool) (b c s1 m cw k1 t1 : Int) (os opd : Option (List Int)),
      convTransposeShapes
        ((conv cuda
          { inputs := ["x", "w"], strides := some [t1], auto_pad := some "SAME_UPPER",
            output_shape := os, output_padding := opd }
          (dictOf [some b, some c, some s1] [some m, some cw, some k1]) true).1)
        = [([DynDim.known (some b), .known (some (t1 * s1))].insertIdx
            ((computeFormat cuda 3).indexOf Ax.C) (.known (some cw)))]
      ∧ sliceArgs ((conv cuda
          { inputs := ["x", "w"], strides := some [t1], auto_pad := some "SAME_UPPER",
            output_shape := os, output_padding := opd }
          (dictOf [some b, some c, some s1] [some m, some cw, some k1]) true).1) = []
      ∧ padSpecs ((conv cuda
          { inputs := ["x", "w"], strides := some [t1], auto_pad := some "SAME_UPPER",
            output_shape := os, output_padding := opd }
          (dictOf [some b, some c, some s1] [some m, some cw, some k1]) true).1) = [])
    ∧ (∀ (cuda : Bool) (b c s1 s2 m cw k1 k2 t1 t2 : Int) (os opd : Option (List Int)),
      convTransposeShapes
        ((conv cuda
          { inputs := ["x", "w"], strides := some [t1, t2], auto_pad := some "SAME_UPPER",
            output_shape := os, output_padding := opd }
          (dictOf [some b, some c, some s1, some s2] [some m, some cw, some k1, some k2])
          true).1)
        = [([DynDim.known (some b), .known (some (t1 * s1)),
             .known (some (t2 * s2))].insertIdx
            ((computeFormat cuda 4).indexOf Ax.C) (.known (some cw)))]
      ∧ sliceArgs ((conv cuda
          { inputs := ["x", "w"], strides := some [t1, t2], auto_pad := some "SAME_UPPER",
            output_shape := os, output_padding := opd }
          (dictOf [some b, some c, some s1, some s2] [some m, some cw, some k1, some k2])
          true).1) = []
      ∧ padSpecs ((conv cuda
          { inputs := ["x", "w"], strides := some [t1, t2], auto_pad := some "SAME_UPPER",
            output_shape := os, output_padding := opd }
          (dictOf [some b, some c, some s1, some s2] [some m, some cw, some k1, some k2])
          true).1) = [])
    ∧ (∀ (cuda : Bool) (b c s1 s2 s3 m cw k1 k2 k3 t1 t2 t3 : Int) (os opd : Option (List Int)),
      convTransposeShapes
        ((conv cuda
          { inputs := ["x", "w"], strides := some [t1, t2, t3], auto_pad := some "SAME_UPPER",
            output_shape := os, output_padding := opd }
          (dictOf [some b, some c, some s1, some s2, some s3]
            [some m, some cw, some k1, some k2, some k3]) true).1)
        = [([DynDim.known (some b), .known (some (t1 * s1)), .known (some (t2 * s2)),
             .known (some (t3 * s3))].insertIdx
            ((computeFormat cuda 5).indexOf Ax.C) (.known (some cw)))]
      ∧ sliceArgs ((conv cuda
          { inputs := ["x", "w"], strides := some [t1, t2, t3], auto_pad := some "SAME_UPPER",
            output_shape := os, output_padding := opd }
          (dictOf [some b, some c, some s1, some s2, some s3]
            [some m, some cw, some k1, some k2, some k3]) true).1) = []
      ∧ padSpecs ((conv cuda
          { inputs := ["x", "w"], strides := some [t1, t2, t3], auto_pad := some "SAME_UPPER",
            output_shape := os, output_padding := opd }
          (dictOf [some b, some c, some s1, some s2, some s3]
            [some m, some cw, some k1, some k2, some k3]) true).1) = []) := by
  refine ⟨?_, ?_, ?_, ?_, ?_, ?_⟩ <;> intros <;> rename Bool => cuda <;> cases cuda <;>
    exact ⟨rfl, rfl, rfl⟩

end OnnxTf

namespace OnnxTf

/-- C7 counterexample: when both output_shape and output_padding are present,
the code skips the output_padding pad entirely (the condition at line 200 also
requires output_shape to be absent), so no pad operation appears in the trace
although the attribute is present. -/
theorem C7_output_padding_skipped_counterexample :
    padSpecs (conv true nodeC7cex dictStd true).1 = []
    ∧ nodeC7cex.output_padding ≠ none :=
  ⟨rfl, by simp [nodeC7cex]⟩

set_option maxHeartbeats 4000000 in
set_option maxRecDepth 40000 in
/-- C7 (amended): in ExplicitWithValid mode, whenever output_padding is present
and no explicit output_shape attribute is given, the primitive's result is
zero-padded at the trailing side of each spatial axis by the output_padding
amounts and then sliced, the slice removing pads[begin,i] from the front and
pads[end,i] from the back of each spatial axis (the batch and channel slice
extents are the unpadded sizes, written below with their two zero pad terms);
the slice batch extent is taken from the runtime input shape when the static
batch size is unknown; the trace order is transposed-convolution, then pad,
then slice. -/
theorem C7_output_padding_then_crop :
    (∀ (cuda : Bool) (b c s1 s2 m cw k1 k2 t1 t2 p1 p2 p3 p4 q1 q2 : Int),
      padSpecs ((conv cuda
          { inputs := ["x", "w"], strides := some [t1, t2], pads := some [p1, p2, p3, p4],
            output_padding := some [q1, q2] }
          (dictOf [some b, some c, some s1, some s2] [some m, some cw, some k1, some k2])
          true).1)
        = [(((0, 0) : Int × Int) :: [((0 : Int), q1), (0, q2)]).insertIdx
            ((computeFormat cuda 4).indexOf Ax.C) (0, 0)]
      ∧ sliceArgs ((conv cuda
          { inputs := ["x", "w"], strides := some [t1, t2], pads := some [p1, p2, p3, p4],
            output_padding := some [q1, q2] }
          (dictOf [some b, some c, some s1, some s2] [some m, some cw, some k1, some k2])
          true).1)
        = [((((0 : Int) :: [p1, p2]).insertIdx ((computeFormat cuda 4).indexOf Ax.C) 0),
            ([DynDim.known (some (b + 0 + 0)),
              .known (some (t1 * (s1 - 1) + (k1 - 1) * 1 + 1 + q1 - p1 - p3)),
              .known (some (t2 * (s2 - 1) + (k2 - 1) * 1 + 1 + q2 - p2 - p4))].insertIdx
              ((computeFormat cuda 4).indexOf Ax.C) (.known (some (cw + 0 + 0)))))]
      ∧ ((conv cuda
          { inputs := ["x", "w"], strides := some [t1, t2], pads := some [p1, p2, p3, p4],
            output_padding := some [q1, q2] }
          (dictOf [some b, some c, some s1, some s2] [some m, some cw, some k1, some k2])
          true).1.map Op.kind)
        = if cuda then [.transposeK, .splitK, .splitK, .convTK, .padK, .sliceK, .concatK]
          else [.transposeK, .splitK, .transposeK, .splitK, .convTK, .padK, .sliceK,
            .concatK, .transposeK])
    ∧ (∀ (cuda : Bool) (c s1 s2 m cw k1 k2 t1 t2 p1 p2 p3 p4 q1 q2 : Int),
      convTransposeShapes ((conv cuda
          { inputs := ["x", "w"], strides := some [t1, t2], pads := some [p1, p2, p3, p4],
            output_padding := some [q1, q2] }
          (dictOf [none, some c, some s1, some s2] [some m, some cw, some k1, some k2])
          true).1)
        = [([DynDim.runtimeBatch 0,
             .known (some (t1 * s1 - t1 + (k1 - 1) * 1 + 1)),
             .known (some (t2 * s2 - t2 + (k2 - 1) * 1 + 1))].insertIdx
            ((computeFormat cuda 4).indexOf Ax.C) (.known (some cw)))]
      ∧ sliceArgs ((conv cuda
          { inputs := ["x", "w"], strides := some [t1, t2], pads := some [p1, p2, p3, p4],
            output_padding := some [q1, q2] }
          (dictOf [none, some c, some s1, some s2] [some m, some cw, some k1, some k2])
          true).1)
        = [((((0 : Int) :: [p1, p2]).insertIdx ((computeFormat cuda 4).indexOf Ax.C) 0),
            ([DynDim.runtimeBatch 0,
              .known (some (t1 * (s1 - 1) + (k1 - 1) * 1 + 1 + q1 - p1 - p3)),
              .known (some (t2 * (s2 - 1) + (k2 - 1) * 1 + 1 + q2 - p2 - p4))].insertIdx
              ((computeFormat cuda 4).indexOf Ax.C) (.known (some (cw + 0 + 0)))))])
    ∧ (∀ (cuda : Bool) (b c s1 m cw k1 t1 p1 p2 q1 : Int),
      padSpecs ((conv cuda
          { inputs := ["x", "w"], strides := some [t1], pads := some [p1, p2],
            output_padding := some [q1] }
          (dictOf [some b, some c, some s1] [some m, some cw, some k1]) true).1)
        = [(((0, 0) : Int × Int) :: [((0 : Int), q1)]).insertIdx
            ((computeFormat cuda 3).indexOf Ax.C) (0, 0)]
      ∧ sliceArgs ((conv cuda
          { inputs := ["x", "w"], strides := some [t1], pads := some [p1, p2],
            output_padding := some [q1] }
          (dictOf [some b, some c, some s1] [some m, some cw, some k1]) true).1)
        = [((((0 : Int) :: [p1]).insertIdx ((computeFormat cuda 3).indexOf Ax.C) 0),
            ([DynDim.known (some (b + 0 + 0)),
              .known (some (t1 * (s1 - 1) + (k1 - 1) * 1 + 1 + q1 - p1 - p2))].insertIdx
              ((computeFormat cuda 3).indexOf Ax.C) (.known (some (cw + 0 + 0)))))])
    ∧ (∀ (cuda : Bool) (b c s1 s2 s3 m cw k1 k2 k3 t1 t2 t3 p1 p2 p3 p4 p5 p6 q1 q2 q3 : Int),
      padSpecs ((conv cuda
          { inputs := ["x", "w"], strides := some [t1, t2, t3],
            pads := some [p1, p2, p3, p4, p5, p6], output_padding := some [q1, q2, q3] }
          (dictOf [some b, some c, some s1, some s2, some s3]
            [some m, some cw, some k1, some k2, some k3]) true).1)
        = [(((0, 0) : Int × Int) :: [((0 : Int), q1), (0, q2), (0, q3)]).insertIdx
            ((computeFormat cuda 5).indexOf Ax.C) (0, 0)]
      ∧ sliceArgs ((conv cuda
          { inputs := ["x", "w"], strides := some [t1, t2, t3],
            pads := some [p1, p2, p3, p4, p5, p6], output_padding := some [q1, q2, q3] }
          (dictOf [some b, some c, some s1, some s2, some s3]
            [some m, some cw, some k1, some k2, some k3]) true).1)
        = [((((0 : Int) :: [p1, p2, p3]).insertIdx ((computeFormat cuda 5).indexOf Ax.C) 0),
            ([DynDim.known (some (b + 0 + 0)),
              .known (some (t1 * (s1 - 1) + (k1 - 1) * 1 + 1 + q1 - p1 - p4)),
              .known (some (t2 * (s2 - 1) + (k2 - 1) * 1 + 1 + q2 - p2 - p5)),
              .known (some (t3 * (s3 - 1) + (k3 - 1) * 1 + 1 + q3 - p3 - p6))].insertIdx
              ((computeFormat cuda 5).indexOf Ax.C) (.known (some (cw + 0 + 0)))))]) := by
  refine ⟨?_, ?_, ?_, ?_⟩ <;> intros <;> rename Bool => cuda <;> cases cuda <;>
    simp only [show ∀ t s k q pb pe : Int,
        t * (s - 1) + (k - 1) * 1 + 1 + q - pb - pe
          = t * s - t + (k - 1) * 1 + 1 + 0 + q - pb - pe
        from fun t s k q pb pe => by ring] <;>
    first
      | exact ⟨rfl, rfl, rfl⟩
      | exact ⟨rfl, rfl⟩

end OnnxTf

namespace OnnxTf

/-- C8: for every transposed convolution whose kernel check passes, whose
auto_pad is one of the supported values, whose resolved dilations are unit and
whose group count is positive, a spatial rank outside 1-3 makes the translation
fail with the unimplemented-rank condition; and at spatial ranks 1, 2 and 3 the
backend transposed-convolution primitive of that rank is selected (the rank tag
recorded on the emitted primitive call equals the spatial rank). -/
theorem C8_spatial_rank_dispatch :
    (∀ (cuda : Bool) (node : Node) (dict : String → TensorVal) (k : List Dim),
      resolveKernelShape node.kernel_shape (dict (node.inputs.getD 1 "")).shape = .ok k →
      (node.auto_pad = none ∨ node.auto_pad = some "NOTSET"
        ∨ node.auto_pad = some "SAME_UPPER" ∨ node.auto_pad = some "VALID") →
      node.dilations.getD
        (List.replicate ((dict (node.inputs.getD 0 "")).shape.length - 2) 1)
        = List.replicate ((dict (node.inputs.getD 0 "")).shape.length - 2) 1 →
      ∀ g', node.group.getD 1 = g' + 1 →
      ¬((dict (node.inputs.getD 0 "")).shape.length - 2 = 1
        ∨ (dict (node.inputs.getD 0 "")).shape.length - 2 = 2
        ∨ (dict (node.inputs.getD 0 "")).shape.length - 2 = 3) →
      (conv cuda node dict true).2 = .error .unimplementedRank)
    ∧ (∀ (cuda : Bool) (b c s1 m cw k1 t1 : Int),
      convTransposeDims ((conv cuda
        { inputs := ["x", "w"], strides := some [t1], auto_pad := some "VALID" }
        (dictOf [some b, some c, some s1] [some m, some cw, some k1]) true).1) = [1])
    ∧ (∀ (cuda : Bool) (b c s1 s2 m cw k1 k2 t1 t2 : Int),
      convTransposeDims ((conv cuda
        { inputs := ["x", "w"], strides := some [t1, t2], auto_pad := some "VALID" }
        (dictOf [some b, some c, some s1, some s2] [some m, some cw, some k1, some k2])
        true).1) = [2])
    ∧ (∀ (cuda : Bool) (b c s1 s2 s3 m cw k1 k2 k3 t1 t2 t3 : Int),
      convTransposeDims ((conv cuda
        { inputs := ["x", "w"], strides := some [t1, t2, t3], auto_pad := some "VALID" }
        (dictOf [some b, some c, some s1, some s2, some s3]
          [some m, some cw, some k1, some k2, some k3]) true).1) = [3]) := by
  refine ⟨?_, ?_, ?_, ?_⟩
  · intro cuda node dict k hk hap hdil g' hg hnd
    obtain ⟨pm, hdp⟩ := derivePadMode_true_cases node.auto_pad
      (node.pads.getD (List.replicate
        (2 * ((dict (node.inputs.getD 0 "")).shape.length - 2)) 0))
      ((dict (node.inputs.getD 0 "")).shape.length - 2)
      (Tensor.input (dict (node.inputs.getD 0 "")).name) hap
    cases cuda <;>
      (simp only [conv, hk, hdp, hdil, hg, eq_self_iff_true, and_self, and_true, true_and,
         if_true, if_false, ne_eq, not_true_eq_false, not_false_eq_true, and_false, false_and,
         Bool.true_eq_false, List.range_succ_eq_map, List.map_cons, List.zip_cons_cons]
       split
       next lops e2 heq2 =>
         obtain ⟨hl, he2⟩ := tLoop_error_inv _ _ _ _ heq2
         simp [he2]
       next lops convd heq2 =>
         rw [tLoop.eq_def] at heq2
         simp only [oneT, if_neg hnd] at heq2
         exact absurd (congrArg Prod.snd heq2) (by simp))
  · intros; rename Bool => cuda; cases cuda <;> rfl
  · intros; rename Bool => cuda; cases cuda <;> rfl
  · intros; rename Bool => cuda; cases cuda <;> rfl

/-- Witness for C8 at a concrete five-spatial-axis transposed convolution. -/
theorem C8_spatial_rank_dispatch_witness :
    (conv true nodeC8wit dictR7 true).2 = .error .unimplementedRank :=
  C8_spatial_rank_dispatch.1 true nodeC8wit dictR7
    [some 3, some 3, some 3, some 3, some 3] (by with_unfolding_all rfl) (Or.inl rfl)
    (by with_unfolding_all rfl) 0 rfl (by decide)

/-- C10 (amended): the bias is broadcast toward the channel axis with the tensor
currently bound to x as the reference operand and added after concatenation and
before the final layout reversion: in the group-1 fast path the reference is
the (possibly padded) input; in the transposed grouped path it is the last
group's input slice; in the non-transposed grouped path (Python 3 comprehension
scoping) it is the whole input, layout-transposed on the unaccelerated path. -/
theorem C10_bias_reference_binding :
    (∀ (cuda : Bool) (b c s1 s2 m cw k1 k2 : Int),
      resultBiasRef (conv cuda { inputs := ["x", "w", "b"] }
          (dictOf [some b, some c, some s1, some s2] [some m, some cw, some k1, some k2])
          false)
        = some (.input "x")
      ∧ ((conv cuda { inputs := ["x", "w", "b"] }
          (dictOf [some b, some c, some s1, some s2] [some m, some cw, some k1, some k2])
          false).1.map Op.kind)
        = (if cuda then [.transposeK, .convK, .addK]
           else [.transposeK, .convK, .addK, .transposeK]))
    ∧ (∀ (cuda : Bool) (b c s1 s2 m cw k1 k2 : Int),
      resultBiasRef (conv cuda { inputs := ["x", "w", "b"], pads := some [1, 1, 1, 1] }
          (dictOf [some b, some c, some s1, some s2] [some m, some cw, some k1, some k2])
          false)
        = some (.padT (.input "x") [(0, 0), (0, 0), (1, 1), (1, 1)]))
    ∧ (∀ (cuda : Bool) (g' : Nat) (b c s1 s2 m cw k1 k2 t1 t2 : Int),
      resultBiasRef (conv cuda
          { inputs := ["x", "w", "b"], strides := some [t1, t2], auto_pad := some "VALID",
            group := some (g' + 1) }
          (dictOf [some b, some c, some s1, some s2] [some m, some cw, some k1, some k2])
          true)
        = some (if cuda then Tensor.part (.input "x") (g' + 1) 1 g'
           else Tensor.part (.transposeT (.input "x")
             (permFromFormats (storageFormat 4) (computeFormat false 4))) (g' + 1) (-1) g'))
    ∧ (∀ (cuda : Bool) (g' : Nat) (b c s1 s2 m cw k1 k2 : Int),
      resultBiasRef (conv cuda { inputs := ["x", "w", "b"], group := some (g' + 2) }
          (dictOf [some b, some c, some s1, some s2] [some m, some cw, some k1, some k2])
          false)
        = some (if cuda then Tensor.input "x"
           else .transposeT (.input "x")
             (permFromFormats (storageFormat 4) (computeFormat false 4)))
      ∧ ((conv cuda { inputs := ["x", "w", "b"], group := some (g' + 2) }
          (dictOf [some b, some c, some s1, some s2] [some m, some cw, some k1, some k2])
          false).1.map Op.kind)
        = (if cuda then [.transposeK, .splitK, .splitK]
              ++ List.replicate (g' + 2) OpKind.convK ++ [.concatK, .addK]
           else [.transposeK, .splitK, .transposeK, .splitK]
              ++ List.replicate (g' + 2) OpKind.convK ++ [.concatK, .addK, .transposeK])) := by
  refine ⟨?_, ?_, ?_, ?_⟩
  · intro cuda b c s1 s2 m cw k1 k2
    cases cuda <;> exact ⟨rfl, rfl⟩
  · intro cuda b c s1 s2 m cw k1 k2
    cases cuda <;> (set_option maxRecDepth 100000 in with_unfolding_all rfl)
  · intro cuda g' b c s1 s2 m cw k1 k2 t1 t2
    cases cuda <;>
      simp [conv, dictOf, resolveKernelShape, derivePadMode, tLoop_ok_of,
        getLast?_zip_map_range, resultBiasRef, assemble, topBiasRef]
  · intro cuda g' b c s1 s2 m cw k1 k2
    cases cuda <;>
      (constructor
       · simp [conv, dictOf, resolveKernelShape, derivePadMode, resultBiasRef, assemble,
           topBiasRef]
       · simp [conv, dictOf, resolveKernelShape, derivePadMode, assemble, List.zip_map',
           Function.comp_def, Op.kind, List.map_const', List.length_range])

end OnnxTf
